import Mathlib

/-!
# Security Center subscription pricing resource

A shallow embedding of
`azurerm/internal/services/securitycenter/resource_arm_security_center_subscription_pricing.go`.

The resource data `d` is an explicit record, the pricing client is a pair of
state-passing functions over an arbitrary remote state `σ`, and every
operation returns its Go error, the resource data afterwards, the remote state
afterwards and the remote calls it issued, in order.  Contexts, deadlines and
logging carry no data and are left out.
-/

namespace SecurityCenter

/-! ## Data model -/

/-- The constant `securityCenterSubscriptionPricingName` (source line 18). -/
def securityCenterSubscriptionPricingName : String := "default"

/-- The part of `*http.Response` the resource looks at. -/
structure HttpResponse where
  StatusCode : Nat
deriving DecidableEq, Repr

/-- The SDK type `security.PricingProperties`; `PricingTier` is a string type. -/
structure PricingProperties where
  PricingTier : String
deriving DecidableEq, Repr

/-- The SDK type `security.Pricing`: the embedded `autorest.Response` (a nilable
`*http.Response`), the nilable `*PricingProperties`, and the nilable strings
`ID`, `Name` and `Type`. -/
structure Pricing where
  Response : Option HttpResponse
  PricingProperties : Option PricingProperties
  ID : Option String
  Name : Option String
  Type_ : Option String
deriving DecidableEq, Repr

/-- The fields of `*schema.ResourceData` the resource reads and writes:
`d.Id()`, `d.Get("tier")` and `d.Get("pricingName")`. -/
structure ResourceData where
  id : String
  tier : String
  pricingName : String
deriving DecidableEq, Repr

/-- The framework call `d.SetId(v)`. -/
def ResourceData.SetId (d : ResourceData) (v : String) : ResourceData :=
  { d with id := v }

/-- The framework call `d.Set("tier", v)`. -/
def ResourceData.SetTier (d : ResourceData) (v : String) : ResourceData :=
  { d with tier := v }

/-- What a client call returns: the response value and the Go `error`
(`none` is `nil`, `some cause` carries the cause). -/
structure ClientResult where
  resp : Pricing
  err : Option String
deriving DecidableEq, Repr

/-- The `PricingClient` of the SDK as a stub over a remote state `σ`:
`client.Update(ctx, name, pricing)` and `client.Get(ctx, name)`. -/
structure PricingClient (σ : Type) where
  Update : σ → String → Pricing → ClientResult × σ
  Get : σ → String → ClientResult × σ

/-- A remote call together with its arguments. -/
inductive Call where
  | Update (name : String) (pricing : Pricing)
  | Get (name : String)
deriving DecidableEq, Repr

/-- The profile name a remote call was made with. -/
def Call.name : Call → String
  | .Update n _ => n
  | .Get n => n

/-- The three errors the resource builds with `fmt.Errorf`:
* `RemoteWriteError cause` is
  `"Error creating/updating Security Center Subscription pricing: %+v"` (line 77);
* `RemoteReadError cause` is
  `"Error reading Security Center Subscription pricing: %+v"` (lines 82 and 111);
* `MissingIdentifierError` is
  `"Security Center Subscription pricing ID is nil"` (line 85). -/
inductive AdapterError where
  | RemoteWriteError (cause : String)
  | RemoteReadError (cause : String)
  | MissingIdentifierError
deriving DecidableEq, Repr

/-- The message of the Go error. -/
def AdapterError.Error : AdapterError → String
  | .RemoteWriteError cause =>
      "Error creating/updating Security Center Subscription pricing: " ++ cause
  | .RemoteReadError cause =>
      "Error reading Security Center Subscription pricing: " ++ cause
  | .MissingIdentifierError => "Security Center Subscription pricing ID is nil"

/-- The result of running one operation of the resource. -/
structure Outcome (σ : Type) where
  err : Option AdapterError
  d : ResourceData
  remote : σ
  calls : List Call

/-- Modelled from the spec: `utils.ResponseWasNotFound` (package
`azurerm/utils`) is not among the sources.  It tells whether "the remote system
reports the entity not found": the response is present and its status is 404. -/
def ResponseWasNotFound (resp : Option HttpResponse) : Bool :=
  match resp with
  | some r => r.StatusCode == 404
  | none => false

/-! ## Operations -/

/-- Source lines 93-119. -/
def resourceArmSecurityCenterSubscriptionPricingRead {σ : Type}
    (client : PricingClient σ) (s : σ) (d : ResourceData) : Outcome σ :=
  let name := if d.pricingName.length = 0 then securityCenterSubscriptionPricingName
    else d.pricingName
  let r := client.Get s name
  match r.1.err with
  | some err =>
    if ResponseWasNotFound r.1.resp.Response then
      { err := none, d := d.SetId "", remote := r.2, calls := [Call.Get name] }
    else
      { err := some (AdapterError.RemoteReadError err), d := d, remote := r.2,
        calls := [Call.Get name] }
  | none =>
    match r.1.resp.PricingProperties with
    | some properties =>
      { err := none, d := d.SetTier properties.PricingTier, remote := r.2,
        calls := [Call.Get name] }
    | none => { err := none, d := d, remote := r.2, calls := [Call.Get name] }

/-- Source lines 56-91. -/
def resourceArmSecurityCenterSubscriptionPricingUpdate {σ : Type}
    (client : PricingClient σ) (s : σ) (d : ResourceData) : Outcome σ :=
  let name := if d.pricingName.length = 0 then securityCenterSubscriptionPricingName
    else d.pricingName
  let pricing : Pricing :=
    { Response := none, PricingProperties := some { PricingTier := d.tier },
      ID := none, Name := none, Type_ := none }
  let u := client.Update s name pricing
  match u.1.err with
  | some err =>
    { err := some (AdapterError.RemoteWriteError err), d := d, remote := u.2,
      calls := [Call.Update name pricing] }
  | none =>
    let g := client.Get u.2 name
    match g.1.err with
    | some err =>
      { err := some (AdapterError.RemoteReadError err), d := d, remote := g.2,
        calls := [Call.Update name pricing, Call.Get name] }
    | none =>
      match g.1.resp.ID with
      | none =>
        { err := some AdapterError.MissingIdentifierError, d := d, remote := g.2,
          calls := [Call.Update name pricing, Call.Get name] }
      | some id =>
        let r := resourceArmSecurityCenterSubscriptionPricingRead client g.2 (d.SetId id)
        { err := r.err, d := r.d, remote := r.remote,
          calls := [Call.Update name pricing, Call.Get name] ++ r.calls }

/-- Source lines 121-125. -/
def resourceArmSecurityCenterSubscriptionPricingDelete {σ : Type}
    (_client : PricingClient σ) (s : σ) (d : ResourceData) : Outcome σ :=
  { err := none, d := d, remote := s, calls := [] }

/-! ## A remote stub that echoes writes -/

/-- A stub remote whose state is the last written tier: `Update` always
succeeds and stores the tier of the descriptor, `Get` always succeeds and
answers with the fixed identifier `id` and the stored tier. -/
def echoClient (id : String) : PricingClient String where
  Update := fun s name pricing =>
    let t := match pricing.PricingProperties with
      | some p => p.PricingTier
      | none => s
    ({ resp := { Response := some { StatusCode := 200 },
                 PricingProperties := some { PricingTier := t },
                 ID := some id, Name := some name, Type_ := none },
       err := none }, t)
  Get := fun s name =>
    ({ resp := { Response := some { StatusCode := 200 },
                 PricingProperties := some { PricingTier := s },
                 ID := some id, Name := some name, Type_ := none },
       err := none }, s)

/-- A stub remote driven by a script: `Update` always succeeds and answers with
the descriptor it was given, `Get` answers with the next scripted result and
fails once the script is used up. -/
def scriptedClient : PricingClient (List ClientResult) where
  Update := fun s _ pricing => ({ resp := pricing, err := none }, s)
  Get := fun s _ =>
    match s with
    | [] =>
      ({ resp := { Response := none, PricingProperties := none, ID := none,
                   Name := none, Type_ := none },
         err := some "script exhausted" }, [])
    | r :: rest => (r, rest)

/-- A successful `Get` result with status 200, the given identifier and tier. -/
def okResult (id : Option String) (tier : Option String) : ClientResult :=
  { resp := { Response := some { StatusCode := 200 },
              PricingProperties := tier.map fun t => { PricingTier := t },
              ID := id, Name := none, Type_ := none },
    err := none }

/-- A failed `Get` result with the given status code and no payload. -/
def failResult (status : Nat) (cause : String) : ClientResult :=
  { resp := { Response := some { StatusCode := status }, PricingProperties := none,
              ID := none, Name := none, Type_ := none },
    err := some cause }

/-- A stub remote whose `Update` always fails with status 500 and whose `Get`
always succeeds with the given identifier and no pricing properties. -/
def rejectingClient (id : String) : PricingClient Unit where
  Update := fun s _ _ =>
    ({ resp := { Response := some { StatusCode := 500 }, PricingProperties := none,
                 ID := none, Name := none, Type_ := none },
       err := some "update rejected" }, s)
  Get := fun s _ =>
    ({ resp := { Response := some { StatusCode := 200 }, PricingProperties := none,
                 ID := some id, Name := none, Type_ := none },
       err := none }, s)

/-! ## Names used in the statements -/

/-- The profile name both operations resolve before their first remote call
(source lines 61-65 and 98-101). -/
def effectiveName (d : ResourceData) : String :=
  if d.pricingName.length = 0 then securityCenterSubscriptionPricingName else d.pricingName

/-- The descriptor `Update` sends (source lines 70-74): only the tier is set. -/
def pricingDescriptor (d : ResourceData) : Pricing :=
  { Response := none, PricingProperties := some { PricingTier := d.tier },
    ID := none, Name := none, Type_ := none }

/-- The result of the `Update` call of an Apply started in remote state `s`. -/
def updateCall {σ : Type} (client : PricingClient σ) (s : σ) (d : ResourceData) :
    ClientResult × σ :=
  client.Update s (effectiveName d) (pricingDescriptor d)

/-- The result of the confirmation `Get` of an Apply started in remote state `s`. -/
def confirmCall {σ : Type} (client : PricingClient σ) (s : σ) (d : ResourceData) :
    ClientResult × σ :=
  client.Get (updateCall client s d).2 (effectiveName d)

/-- The result of the `Get` made by the Refresh at the end of an Apply started in
remote state `s`. -/
def refreshCall {σ : Type} (client : PricingClient σ) (s : σ) (d : ResourceData) :
    ClientResult × σ :=
  client.Get (confirmCall client s d).2 (effectiveName d)

/-- The error is one of the two remote errors. -/
def isRemoteError : Option AdapterError → Bool
  | some (.RemoteWriteError _) => true
  | some (.RemoteReadError _) => true
  | _ => false

/-! ## Basic facts -/

theorem effectiveName_ne_empty (d : ResourceData) : effectiveName d ≠ "" := by
  unfold effectiveName
  split
  · simp [securityCenterSubscriptionPricingName]
  · rename_i h
    intro h2
    apply h
    rw [h2]
    rfl

theorem read_setId_name (d : ResourceData) (v : String) :
    effectiveName (d.SetId v) = effectiveName d := rfl

theorem read_of_not_found {σ : Type} (client : PricingClient σ) (s : σ) (d : ResourceData)
    (e : String) (herr : (client.Get s (effectiveName d)).1.err = some e)
    (hnf : ResponseWasNotFound (client.Get s (effectiveName d)).1.resp.Response = true) :
    resourceArmSecurityCenterSubscriptionPricingRead client s d
      = { err := none, d := d.SetId "", remote := (client.Get s (effectiveName d)).2,
          calls := [Call.Get (effectiveName d)] } := by
  simp only [effectiveName] at herr hnf
  simp only [resourceArmSecurityCenterSubscriptionPricingRead, effectiveName]
  rw [herr]
  simp only [hnf, if_true]

theorem read_of_error {σ : Type} (client : PricingClient σ) (s : σ) (d : ResourceData)
    (e : String) (herr : (client.Get s (effectiveName d)).1.err = some e)
    (hnf : ResponseWasNotFound (client.Get s (effectiveName d)).1.resp.Response = false) :
    resourceArmSecurityCenterSubscriptionPricingRead client s d
      = { err := some (AdapterError.RemoteReadError e), d := d,
          remote := (client.Get s (effectiveName d)).2,
          calls := [Call.Get (effectiveName d)] } := by
  simp only [effectiveName] at herr hnf
  simp only [resourceArmSecurityCenterSubscriptionPricingRead, effectiveName]
  rw [herr]
  simp [hnf]

theorem read_of_properties {σ : Type} (client : PricingClient σ) (s : σ) (d : ResourceData)
    (p : PricingProperties) (herr : (client.Get s (effectiveName d)).1.err = none)
    (hp : (client.Get s (effectiveName d)).1.resp.PricingProperties = some p) :
    resourceArmSecurityCenterSubscriptionPricingRead client s d
      = { err := none, d := d.SetTier p.PricingTier,
          remote := (client.Get s (effectiveName d)).2,
          calls := [Call.Get (effectiveName d)] } := by
  simp only [effectiveName] at herr hp
  simp only [resourceArmSecurityCenterSubscriptionPricingRead, effectiveName]
  rw [herr]
  simp only
  rw [hp]

theorem read_of_no_properties {σ : Type} (client : PricingClient σ) (s : σ)
    (d : ResourceData) (herr : (client.Get s (effectiveName d)).1.err = none)
    (hp : (client.Get s (effectiveName d)).1.resp.PricingProperties = none) :
    resourceArmSecurityCenterSubscriptionPricingRead client s d
      = { err := none, d := d, remote := (client.Get s (effectiveName d)).2,
          calls := [Call.Get (effectiveName d)] } := by
  simp only [effectiveName] at herr hp
  simp only [resourceArmSecurityCenterSubscriptionPricingRead, effectiveName]
  rw [herr]
  simp only
  rw [hp]

theorem read_calls {σ : Type} (client : PricingClient σ) (s : σ) (d : ResourceData) :
    (resourceArmSecurityCenterSubscriptionPricingRead client s d).calls
      = [Call.Get (effectiveName d)] := by
  cases herr : (client.Get s (effectiveName d)).1.err with
  | some e =>
    cases hnf : ResponseWasNotFound (client.Get s (effectiveName d)).1.resp.Response with
    | true => rw [read_of_not_found client s d e herr hnf]
    | false => rw [read_of_error client s d e herr hnf]
  | none =>
    cases hp : (client.Get s (effectiveName d)).1.resp.PricingProperties with
    | some p => rw [read_of_properties client s d p herr hp]
    | none => rw [read_of_no_properties client s d herr hp]

theorem update_of_write_error {σ : Type} (client : PricingClient σ) (s : σ)
    (d : ResourceData) (e : String) (hu : (updateCall client s d).1.err = some e) :
    resourceArmSecurityCenterSubscriptionPricingUpdate client s d
      = { err := some (AdapterError.RemoteWriteError e), d := d,
          remote := (updateCall client s d).2,
          calls := [Call.Update (effectiveName d) (pricingDescriptor d)] } := by
  simp only [updateCall, effectiveName, pricingDescriptor] at hu
  simp only [resourceArmSecurityCenterSubscriptionPricingUpdate, updateCall, effectiveName,
    pricingDescriptor]
  rw [hu]

theorem update_of_confirm_error {σ : Type} (client : PricingClient σ) (s : σ)
    (d : ResourceData) (e : String) (hu : (updateCall client s d).1.err = none)
    (hg : (confirmCall client s d).1.err = some e) :
    resourceArmSecurityCenterSubscriptionPricingUpdate client s d
      = { err := some (AdapterError.RemoteReadError e), d := d,
          remote := (confirmCall client s d).2,
          calls := [Call.Update (effectiveName d) (pricingDescriptor d),
                    Call.Get (effectiveName d)] } := by
  simp only [confirmCall, updateCall, effectiveName, pricingDescriptor] at hu hg
  simp only [resourceArmSecurityCenterSubscriptionPricingUpdate, confirmCall, updateCall,
    effectiveName, pricingDescriptor]
  rw [hu]
  simp only
  rw [hg]

theorem update_of_nil_id {σ : Type} (client : PricingClient σ) (s : σ)
    (d : ResourceData) (hu : (updateCall client s d).1.err = none)
    (hg : (confirmCall client s d).1.err = none)
    (hid : (confirmCall client s d).1.resp.ID = none) :
    resourceArmSecurityCenterSubscriptionPricingUpdate client s d
      = { err := some AdapterError.MissingIdentifierError, d := d,
          remote := (confirmCall client s d).2,
          calls := [Call.Update (effectiveName d) (pricingDescriptor d),
                    Call.Get (effectiveName d)] } := by
  simp only [confirmCall, updateCall, effectiveName, pricingDescriptor] at hu hg hid
  simp only [resourceArmSecurityCenterSubscriptionPricingUpdate, confirmCall, updateCall,
    effectiveName, pricingDescriptor]
  rw [hu]
  simp only
  rw [hg]
  simp only
  rw [hid]

theorem update_of_id {σ : Type} (client : PricingClient σ) (s : σ)
    (d : ResourceData) (id : String) (hu : (updateCall client s d).1.err = none)
    (hg : (confirmCall client s d).1.err = none)
    (hid : (confirmCall client s d).1.resp.ID = some id) :
    resourceArmSecurityCenterSubscriptionPricingUpdate client s d
      = { err := (resourceArmSecurityCenterSubscriptionPricingRead client
                    (confirmCall client s d).2 (d.SetId id)).err,
          d := (resourceArmSecurityCenterSubscriptionPricingRead client
                    (confirmCall client s d).2 (d.SetId id)).d,
          remote := (resourceArmSecurityCenterSubscriptionPricingRead client
                    (confirmCall client s d).2 (d.SetId id)).remote,
          calls := [Call.Update (effectiveName d) (pricingDescriptor d),
                    Call.Get (effectiveName d), Call.Get (effectiveName d)] } := by
  have hc := read_calls client (confirmCall client s d).2 (d.SetId id)
  rw [read_setId_name] at hc
  simp only [confirmCall, updateCall, effectiveName, pricingDescriptor] at hu hg hid hc
  simp only [resourceArmSecurityCenterSubscriptionPricingUpdate, confirmCall, updateCall,
    effectiveName, pricingDescriptor]
  rw [hu]
  simp only
  rw [hg]
  simp only
  rw [hid]
  simp only [hc, List.cons_append, List.nil_append]

theorem read_ok_facts {σ : Type} (client : PricingClient σ) (s : σ)
    (d : ResourceData) (herr : (client.Get s (effectiveName d)).1.err = none) :
    (resourceArmSecurityCenterSubscriptionPricingRead client s d).err = none ∧
    (resourceArmSecurityCenterSubscriptionPricingRead client s d).d.tier
      = (match (client.Get s (effectiveName d)).1.resp.PricingProperties with
         | some properties => properties.PricingTier
         | none => d.tier) ∧
    (resourceArmSecurityCenterSubscriptionPricingRead client s d).d.id = d.id ∧
    (resourceArmSecurityCenterSubscriptionPricingRead client s d).d.pricingName
      = d.pricingName := by
  cases hp : (client.Get s (effectiveName d)).1.resp.PricingProperties with
  | some p =>
    rw [read_of_properties client s d p herr hp]
    exact ⟨rfl, rfl, rfl, rfl⟩
  | none =>
    rw [read_of_no_properties client s d herr hp]
    exact ⟨rfl, rfl, rfl, rfl⟩

theorem read_congr {σ : Type} (client : PricingClient σ) (s : σ) (d0 d1 : ResourceData)
    (hn : effectiveName d0 = effectiveName d1) (hi : d0.id = d1.id)
    (ht : d0.tier = d1.tier) :
    (resourceArmSecurityCenterSubscriptionPricingRead client s d0).calls
      = (resourceArmSecurityCenterSubscriptionPricingRead client s d1).calls ∧
    (resourceArmSecurityCenterSubscriptionPricingRead client s d0).err
      = (resourceArmSecurityCenterSubscriptionPricingRead client s d1).err ∧
    (resourceArmSecurityCenterSubscriptionPricingRead client s d0).d.id
      = (resourceArmSecurityCenterSubscriptionPricingRead client s d1).d.id ∧
    (resourceArmSecurityCenterSubscriptionPricingRead client s d0).d.tier
      = (resourceArmSecurityCenterSubscriptionPricingRead client s d1).d.tier ∧
    (resourceArmSecurityCenterSubscriptionPricingRead client s d0).remote
      = (resourceArmSecurityCenterSubscriptionPricingRead client s d1).remote := by
  cases herr : (client.Get s (effectiveName d1)).1.err with
  | some e =>
    cases hnf : ResponseWasNotFound (client.Get s (effectiveName d1)).1.resp.Response with
    | true =>
      rw [read_of_not_found client s d1 e herr hnf,
        read_of_not_found client s d0 e (hn ▸ herr) (hn ▸ hnf)]
      exact ⟨by rw [hn], rfl, rfl, ht, by rw [hn]⟩
    | false =>
      rw [read_of_error client s d1 e herr hnf,
        read_of_error client s d0 e (hn ▸ herr) (hn ▸ hnf)]
      exact ⟨by rw [hn], rfl, hi, ht, by rw [hn]⟩
  | none =>
    cases hp : (client.Get s (effectiveName d1)).1.resp.PricingProperties with
    | some p =>
      rw [read_of_properties client s d1 p herr hp,
        read_of_properties client s d0 p (hn ▸ herr) (hn ▸ hp)]
      exact ⟨by rw [hn], rfl, hi, rfl, by rw [hn]⟩
    | none =>
      rw [read_of_no_properties client s d1 herr hp,
        read_of_no_properties client s d0 (hn ▸ herr) (hn ▸ hp)]
      exact ⟨by rw [hn], rfl, hi, ht, by rw [hn]⟩

theorem updateCall_congr {σ : Type} (client : PricingClient σ) (s : σ) (d0 d1 : ResourceData)
    (hn : effectiveName d0 = effectiveName d1) (ht : d0.tier = d1.tier) :
    updateCall client s d0 = updateCall client s d1 := by
  simp only [updateCall, pricingDescriptor, hn, ht]

theorem confirmCall_congr {σ : Type} (client : PricingClient σ) (s : σ) (d0 d1 : ResourceData)
    (hn : effectiveName d0 = effectiveName d1) (ht : d0.tier = d1.tier) :
    confirmCall client s d0 = confirmCall client s d1 := by
  simp only [confirmCall, updateCall_congr client s d0 d1 hn ht, hn]

theorem update_congr {σ : Type} (client : PricingClient σ) (s : σ) (d0 d1 : ResourceData)
    (hn : effectiveName d0 = effectiveName d1) (hi : d0.id = d1.id)
    (ht : d0.tier = d1.tier) :
    (resourceArmSecurityCenterSubscriptionPricingUpdate client s d0).calls
      = (resourceArmSecurityCenterSubscriptionPricingUpdate client s d1).calls ∧
    (resourceArmSecurityCenterSubscriptionPricingUpdate client s d0).err
      = (resourceArmSecurityCenterSubscriptionPricingUpdate client s d1).err ∧
    (resourceArmSecurityCenterSubscriptionPricingUpdate client s d0).d.id
      = (resourceArmSecurityCenterSubscriptionPricingUpdate client s d1).d.id ∧
    (resourceArmSecurityCenterSubscriptionPricingUpdate client s d0).d.tier
      = (resourceArmSecurityCenterSubscriptionPricingUpdate client s d1).d.tier ∧
    (resourceArmSecurityCenterSubscriptionPricingUpdate client s d0).remote
      = (resourceArmSecurityCenterSubscriptionPricingUpdate client s d1).remote := by
  have hU := updateCall_congr client s d0 d1 hn ht
  have hC := confirmCall_congr client s d0 d1 hn ht
  have hP : pricingDescriptor d0 = pricingDescriptor d1 := by
    simp only [pricingDescriptor, ht]
  cases hu : (updateCall client s d1).1.err with
  | some e =>
    rw [update_of_write_error client s d1 e hu,
      update_of_write_error client s d0 e (hU ▸ hu)]
    exact ⟨by rw [hn, hP], rfl, hi, ht, by rw [hU]⟩
  | none =>
    cases hg : (confirmCall client s d1).1.err with
    | some e =>
      rw [update_of_confirm_error client s d1 e hu hg,
        update_of_confirm_error client s d0 e (hU ▸ hu) (hC ▸ hg)]
      exact ⟨by rw [hn, hP], rfl, hi, ht, by rw [hC]⟩
    | none =>
      cases hid : (confirmCall client s d1).1.resp.ID with
      | none =>
        rw [update_of_nil_id client s d1 hu hg hid,
          update_of_nil_id client s d0 (hU ▸ hu) (hC ▸ hg) (hC ▸ hid)]
        exact ⟨by rw [hn, hP], rfl, hi, ht, by rw [hC]⟩
      | some id =>
        rw [update_of_id client s d1 id hu hg hid,
          update_of_id client s d0 id (hU ▸ hu) (hC ▸ hg) (hC ▸ hid)]
        have h := read_congr client (confirmCall client s d1).2 (d0.SetId id) (d1.SetId id)
          hn rfl ht
        rw [hC]
        exact ⟨by rw [hn, hP], h.2.1, h.2.2.1, h.2.2.2.1, h.2.2.2.2⟩

theorem update_calls_name {σ : Type} (client : PricingClient σ) (s : σ) (d : ResourceData) :
    ∀ c ∈ (resourceArmSecurityCenterSubscriptionPricingUpdate client s d).calls,
      c.name = effectiveName d := by
  cases hu : (updateCall client s d).1.err with
  | some e =>
    rw [update_of_write_error client s d e hu]
    intro c hc
    simp only [List.mem_singleton] at hc
    rw [hc]; rfl
  | none =>
    cases hg : (confirmCall client s d).1.err with
    | some e =>
      rw [update_of_confirm_error client s d e hu hg]
      intro c hc
      simp only [List.mem_cons, List.mem_singleton, List.not_mem_nil, or_false] at hc
      rcases hc with hc | hc <;> rw [hc] <;> rfl
    | none =>
      cases hid : (confirmCall client s d).1.resp.ID with
      | none =>
        rw [update_of_nil_id client s d hu hg hid]
        intro c hc
        simp only [List.mem_cons, List.mem_singleton, List.not_mem_nil, or_false] at hc
        rcases hc with hc | hc <;> rw [hc] <;> rfl
      | some id =>
        rw [update_of_id client s d id hu hg hid]
        intro c hc
        simp only [List.mem_cons, List.mem_singleton, List.not_mem_nil, or_false] at hc
        rcases hc with hc | hc | hc <;> rw [hc] <;> rfl

/-! ## Refresh -/

/-- C4: when the remote `Get` fails and the response reports not found, Refresh
returns no error, sets the local identifier to the empty string, and leaves the
tier and the profile name as they were. -/
theorem read_not_found_clears_id {σ : Type} (client : PricingClient σ) (s : σ)
    (d : ResourceData)
    (herr : (client.Get s (effectiveName d)).1.err ≠ none)
    (hnf : ResponseWasNotFound (client.Get s (effectiveName d)).1.resp.Response = true) :
    (resourceArmSecurityCenterSubscriptionPricingRead client s d).err = none ∧
    (resourceArmSecurityCenterSubscriptionPricingRead client s d).d.id = "" ∧
    (resourceArmSecurityCenterSubscriptionPricingRead client s d).d.tier = d.tier ∧
    (resourceArmSecurityCenterSubscriptionPricingRead client s d).d.pricingName
      = d.pricingName := by
  simp only [effectiveName] at herr hnf
  simp only [resourceArmSecurityCenterSubscriptionPricingRead]
  split
  · simp [hnf, ResourceData.SetId]
  · rename_i h
    exact absurd h herr

theorem read_not_found_clears_id_witness :
    (resourceArmSecurityCenterSubscriptionPricingRead scriptedClient
        [failResult 404 "not found"] ⟨"sub/123/pricing/default", "Standard", ""⟩).err = none ∧
    (resourceArmSecurityCenterSubscriptionPricingRead scriptedClient
        [failResult 404 "not found"] ⟨"sub/123/pricing/default", "Standard", ""⟩).d.id = "" ∧
    (resourceArmSecurityCenterSubscriptionPricingRead scriptedClient
        [failResult 404 "not found"] ⟨"sub/123/pricing/default", "Standard", ""⟩).d.tier
      = "Standard" ∧
    (resourceArmSecurityCenterSubscriptionPricingRead scriptedClient
        [failResult 404 "not found"] ⟨"sub/123/pricing/default", "Standard", ""⟩).d.pricingName
      = "" :=
  read_not_found_clears_id scriptedClient [failResult 404 "not found"]
    ⟨"sub/123/pricing/default", "Standard", ""⟩ (by decide) (by decide)

/-- C9: when the remote `Get` succeeds, Refresh returns no error, leaves the
local identifier and the profile name as they were, and sets the local tier to
the tier of the response when the response carries pricing properties, leaving
it as it was when the response carries none. -/
theorem read_success_sets_tier {σ : Type} (client : PricingClient σ) (s : σ)
    (d : ResourceData) (herr : (client.Get s (effectiveName d)).1.err = none) :
    (resourceArmSecurityCenterSubscriptionPricingRead client s d).err = none ∧
    (resourceArmSecurityCenterSubscriptionPricingRead client s d).d.id = d.id ∧
    (resourceArmSecurityCenterSubscriptionPricingRead client s d).d.pricingName
      = d.pricingName ∧
    (resourceArmSecurityCenterSubscriptionPricingRead client s d).d.tier
      = (match (client.Get s (effectiveName d)).1.resp.PricingProperties with
         | some properties => properties.PricingTier
         | none => d.tier) := by
  cases hp : (client.Get s (effectiveName d)).1.resp.PricingProperties with
  | some p =>
    rw [read_of_properties client s d p herr hp]
    exact ⟨rfl, rfl, rfl, rfl⟩
  | none =>
    rw [read_of_no_properties client s d herr hp]
    exact ⟨rfl, rfl, rfl, rfl⟩

theorem read_success_sets_tier_witness :
    (resourceArmSecurityCenterSubscriptionPricingRead scriptedClient
        [okResult (some "sub/123/pricing/default") (some "Standard")]
        ⟨"sub/123/pricing/default", "Free", "default"⟩).err = none ∧
    (resourceArmSecurityCenterSubscriptionPricingRead scriptedClient
        [okResult (some "sub/123/pricing/default") (some "Standard")]
        ⟨"sub/123/pricing/default", "Free", "default"⟩).d.id = "sub/123/pricing/default" ∧
    (resourceArmSecurityCenterSubscriptionPricingRead scriptedClient
        [okResult (some "sub/123/pricing/default") (some "Standard")]
        ⟨"sub/123/pricing/default", "Free", "default"⟩).d.pricingName = "default" ∧
    (resourceArmSecurityCenterSubscriptionPricingRead scriptedClient
        [okResult (some "sub/123/pricing/default") (some "Standard")]
        ⟨"sub/123/pricing/default", "Free", "default"⟩).d.tier = "Standard" :=
  read_success_sets_tier scriptedClient
    [okResult (some "sub/123/pricing/default") (some "Standard")]
    ⟨"sub/123/pricing/default", "Free", "default"⟩ (by decide)

/-! ## Remove -/

/-- C6: Remove returns no error, issues no remote call, and leaves the remote
state and the local record (identifier, tier, profile name) as they were. -/
theorem delete_is_noop {σ : Type} (client : PricingClient σ) (s : σ) (d : ResourceData) :
    (resourceArmSecurityCenterSubscriptionPricingDelete client s d).err = none ∧
    (resourceArmSecurityCenterSubscriptionPricingDelete client s d).calls = [] ∧
    (resourceArmSecurityCenterSubscriptionPricingDelete client s d).remote = s ∧
    (resourceArmSecurityCenterSubscriptionPricingDelete client s d).d = d :=
  ⟨rfl, rfl, rfl, rfl⟩

/-! ## Apply -/

/-- C2: when the remote `Update` call fails with cause `e`, Apply returns the
`RemoteWriteError` carrying `e`, the `Update` call is the only remote call made,
and in particular no `Get` is issued. -/
theorem update_write_error_no_get {σ : Type} (client : PricingClient σ) (s : σ)
    (d : ResourceData) (e : String) (hu : (updateCall client s d).1.err = some e) :
    (resourceArmSecurityCenterSubscriptionPricingUpdate client s d).err
      = some (AdapterError.RemoteWriteError e) ∧
    (resourceArmSecurityCenterSubscriptionPricingUpdate client s d).calls
      = [Call.Update (effectiveName d) (pricingDescriptor d)] ∧
    ∀ n, Call.Get n ∉ (resourceArmSecurityCenterSubscriptionPricingUpdate client s d).calls := by
  rw [update_of_write_error client s d e hu]
  refine ⟨rfl, rfl, ?_⟩
  intro n hn
  simp at hn

/-- C3, as amended: when the `Update` call succeeds and the confirmation `Get`
succeeds but returns a nil identifier, Apply returns `MissingIdentifierError`. -/
theorem update_nil_id_missing_identifier {σ : Type} (client : PricingClient σ) (s : σ)
    (d : ResourceData) (hu : (updateCall client s d).1.err = none)
    (hg : (confirmCall client s d).1.err = none)
    (hid : (confirmCall client s d).1.resp.ID = none) :
    (resourceArmSecurityCenterSubscriptionPricingUpdate client s d).err
      = some AdapterError.MissingIdentifierError := by
  rw [update_of_nil_id client s d hu hg hid]

/-- C10: when the `Update` call succeeds and the confirmation `Get` succeeds with
a non-nil identifier, Apply issues exactly three remote calls, in the order
`Update`, `Get`, `Get`, all with the same non-empty effective profile name; the
descriptor sent carries the configured tier and nothing else; and when the last
`Get` succeeds, Apply succeeds and the local tier afterwards is the tier the last
`Get` reported if it carries pricing properties, the configured tier otherwise. -/
theorem update_three_calls {σ : Type} (client : PricingClient σ) (s : σ)
    (d : ResourceData) (id : String) (hu : (updateCall client s d).1.err = none)
    (hg : (confirmCall client s d).1.err = none)
    (hid : (confirmCall client s d).1.resp.ID = some id) :
    (resourceArmSecurityCenterSubscriptionPricingUpdate client s d).calls
      = [Call.Update (effectiveName d) (pricingDescriptor d),
         Call.Get (effectiveName d), Call.Get (effectiveName d)] ∧
    effectiveName d ≠ "" ∧
    pricingDescriptor d
      = { Response := none, PricingProperties := some { PricingTier := d.tier },
          ID := none, Name := none, Type_ := none } ∧
    ((refreshCall client s d).1.err = none →
      (resourceArmSecurityCenterSubscriptionPricingUpdate client s d).err = none ∧
      (resourceArmSecurityCenterSubscriptionPricingUpdate client s d).d.tier
        = (match (refreshCall client s d).1.resp.PricingProperties with
           | some properties => properties.PricingTier
           | none => d.tier)) := by
  rw [update_of_id client s d id hu hg hid]
  refine ⟨rfl, effectiveName_ne_empty d, rfl, ?_⟩
  intro hr
  have h := read_ok_facts client (confirmCall client s d).2 (d.SetId id) hr
  exact ⟨h.1, h.2.1⟩

/-! ## The empty profile name -/

/-- C1: run with the empty profile name, Apply and Refresh issue the same remote
calls with the same arguments, return the same error, and end with the same
identifier, tier and remote state as when run with the profile name "default";
every call then names the profile "default"; and whatever the profile name, no
remote call of Apply or Refresh is made with an empty profile name. -/
theorem empty_profile_name_is_default {σ : Type} (client : PricingClient σ) (s : σ)
    (id tier : String) :
    ((resourceArmSecurityCenterSubscriptionPricingUpdate client s ⟨id, tier, ""⟩).calls
        = (resourceArmSecurityCenterSubscriptionPricingUpdate client s
            ⟨id, tier, "default"⟩).calls ∧
      (resourceArmSecurityCenterSubscriptionPricingUpdate client s ⟨id, tier, ""⟩).err
        = (resourceArmSecurityCenterSubscriptionPricingUpdate client s
            ⟨id, tier, "default"⟩).err ∧
      (resourceArmSecurityCenterSubscriptionPricingUpdate client s ⟨id, tier, ""⟩).d.id
        = (resourceArmSecurityCenterSubscriptionPricingUpdate client s
            ⟨id, tier, "default"⟩).d.id ∧
      (resourceArmSecurityCenterSubscriptionPricingUpdate client s ⟨id, tier, ""⟩).d.tier
        = (resourceArmSecurityCenterSubscriptionPricingUpdate client s
            ⟨id, tier, "default"⟩).d.tier ∧
      (resourceArmSecurityCenterSubscriptionPricingUpdate client s ⟨id, tier, ""⟩).remote
        = (resourceArmSecurityCenterSubscriptionPricingUpdate client s
            ⟨id, tier, "default"⟩).remote) ∧
    ((resourceArmSecurityCenterSubscriptionPricingRead client s ⟨id, tier, ""⟩).calls
        = (resourceArmSecurityCenterSubscriptionPricingRead client s
            ⟨id, tier, "default"⟩).calls ∧
      (resourceArmSecurityCenterSubscriptionPricingRead client s ⟨id, tier, ""⟩).err
        = (resourceArmSecurityCenterSubscriptionPricingRead client s
            ⟨id, tier, "default"⟩).err ∧
      (resourceArmSecurityCenterSubscriptionPricingRead client s ⟨id, tier, ""⟩).d.id
        = (resourceArmSecurityCenterSubscriptionPricingRead client s
            ⟨id, tier, "default"⟩).d.id ∧
      (resourceArmSecurityCenterSubscriptionPricingRead client s ⟨id, tier, ""⟩).d.tier
        = (resourceArmSecurityCenterSubscriptionPricingRead client s
            ⟨id, tier, "default"⟩).d.tier ∧
      (resourceArmSecurityCenterSubscriptionPricingRead client s ⟨id, tier, ""⟩).remote
        = (resourceArmSecurityCenterSubscriptionPricingRead client s
            ⟨id, tier, "default"⟩).remote) ∧
    (∀ c ∈ (resourceArmSecurityCenterSubscriptionPricingUpdate client s ⟨id, tier, ""⟩).calls,
      c.name = "default") ∧
    (∀ c ∈ (resourceArmSecurityCenterSubscriptionPricingRead client s ⟨id, tier, ""⟩).calls,
      c.name = "default") ∧
    (∀ d : ResourceData,
      (∀ c ∈ (resourceArmSecurityCenterSubscriptionPricingUpdate client s d).calls,
        c.name ≠ "") ∧
      (∀ c ∈ (resourceArmSecurityCenterSubscriptionPricingRead client s d).calls,
        c.name ≠ "")) := by
  refine ⟨update_congr client s _ _ rfl rfl rfl, read_congr client s _ _ rfl rfl rfl,
    ?_, ?_, ?_⟩
  · intro c hc
    exact update_calls_name client s _ c hc
  · intro c hc
    rw [read_calls] at hc
    simp only [List.mem_singleton] at hc
    rw [hc]; rfl
  · intro d
    constructor
    · intro c hc
      rw [update_calls_name client s d c hc]
      exact effectiveName_ne_empty d
    · intro c hc
      rw [read_calls] at hc
      simp only [List.mem_singleton] at hc
      rw [hc]
      exact effectiveName_ne_empty d

/-! ## Witnesses and concrete runs of Apply -/

theorem update_write_error_no_get_witness :
    (resourceArmSecurityCenterSubscriptionPricingUpdate (rejectingClient "sub/123/pricing/default")
        () ⟨"", "Standard", ""⟩).err
      = some (AdapterError.RemoteWriteError "update rejected") ∧
    (resourceArmSecurityCenterSubscriptionPricingUpdate (rejectingClient "sub/123/pricing/default")
        () ⟨"", "Standard", ""⟩).calls
      = [Call.Update "default"
          { Response := none, PricingProperties := some { PricingTier := "Standard" },
            ID := none, Name := none, Type_ := none }] :=
  ⟨(update_write_error_no_get (rejectingClient "sub/123/pricing/default") ()
      ⟨"", "Standard", ""⟩ "update rejected" (by decide)).1,
   (update_write_error_no_get (rejectingClient "sub/123/pricing/default") ()
      ⟨"", "Standard", ""⟩ "update rejected" (by decide)).2.1⟩

theorem update_nil_id_missing_identifier_witness :
    (resourceArmSecurityCenterSubscriptionPricingUpdate scriptedClient
        [okResult none (some "Standard")] ⟨"", "Standard", ""⟩).err
      = some AdapterError.MissingIdentifierError :=
  update_nil_id_missing_identifier scriptedClient [okResult none (some "Standard")]
    ⟨"", "Standard", ""⟩ (by decide) (by decide) (by decide)

/-- C3, counterexample: the `Update` call succeeds and the confirmation `Get`
succeeds with the empty string as identifier, yet Apply returns no error at all:
it stores the empty identifier and goes on to Refresh. -/
theorem update_empty_id_no_error :
    (updateCall scriptedClient
        [okResult (some "") (some "Standard"), okResult (some "") (some "Standard")]
        ⟨"", "Standard", ""⟩).1.err = none ∧
    (confirmCall scriptedClient
        [okResult (some "") (some "Standard"), okResult (some "") (some "Standard")]
        ⟨"", "Standard", ""⟩).1.err = none ∧
    (confirmCall scriptedClient
        [okResult (some "") (some "Standard"), okResult (some "") (some "Standard")]
        ⟨"", "Standard", ""⟩).1.resp.ID = some "" ∧
    (resourceArmSecurityCenterSubscriptionPricingUpdate scriptedClient
        [okResult (some "") (some "Standard"), okResult (some "") (some "Standard")]
        ⟨"", "Standard", ""⟩).err = none ∧
    (resourceArmSecurityCenterSubscriptionPricingUpdate scriptedClient
        [okResult (some "") (some "Standard"), okResult (some "") (some "Standard")]
        ⟨"", "Standard", ""⟩).err ≠ some AdapterError.MissingIdentifierError := by
  decide

theorem update_three_calls_witness :
    (resourceArmSecurityCenterSubscriptionPricingUpdate scriptedClient
        [okResult (some "sub/123/pricing/default") (some "Standard"),
         okResult (some "sub/123/pricing/default") (some "Free")]
        ⟨"", "Standard", ""⟩).calls
      = [Call.Update "default"
          { Response := none, PricingProperties := some { PricingTier := "Standard" },
            ID := none, Name := none, Type_ := none },
         Call.Get "default", Call.Get "default"] ∧
    (resourceArmSecurityCenterSubscriptionPricingUpdate scriptedClient
        [okResult (some "sub/123/pricing/default") (some "Standard"),
         okResult (some "sub/123/pricing/default") (some "Free")]
        ⟨"", "Standard", ""⟩).d.tier = "Free" :=
  ⟨(update_three_calls scriptedClient
      [okResult (some "sub/123/pricing/default") (some "Standard"),
       okResult (some "sub/123/pricing/default") (some "Free")]
      ⟨"", "Standard", ""⟩ "sub/123/pricing/default" (by decide) (by decide) (by decide)).1,
   ((update_three_calls scriptedClient
      [okResult (some "sub/123/pricing/default") (some "Standard"),
       okResult (some "sub/123/pricing/default") (some "Free")]
      ⟨"", "Standard", ""⟩ "sub/123/pricing/default" (by decide) (by decide)
      (by decide)).2.2.2 (by decide)).2⟩

/-! ## Round trip against the echoing stub -/

/-- C5: against the echoing stub with a non-empty identifier `id`, from any prior
remote tier, any prior local identifier and any profile name, Apply with
configured tier `T` succeeds and stores `id`, and a Refresh run right after it
succeeds with a non-empty local identifier (`id`) and local tier `T`. -/
theorem apply_refresh_round_trip (id T profileName prevId s0 : String) (hid : id ≠ "") :
    (resourceArmSecurityCenterSubscriptionPricingUpdate (echoClient id) s0
        ⟨prevId, T, profileName⟩).err = none ∧
    (resourceArmSecurityCenterSubscriptionPricingUpdate (echoClient id) s0
        ⟨prevId, T, profileName⟩).d.id = id ∧
    (resourceArmSecurityCenterSubscriptionPricingRead (echoClient id)
        (resourceArmSecurityCenterSubscriptionPricingUpdate (echoClient id) s0
          ⟨prevId, T, profileName⟩).remote
        (resourceArmSecurityCenterSubscriptionPricingUpdate (echoClient id) s0
          ⟨prevId, T, profileName⟩).d).err = none ∧
    (resourceArmSecurityCenterSubscriptionPricingRead (echoClient id)
        (resourceArmSecurityCenterSubscriptionPricingUpdate (echoClient id) s0
          ⟨prevId, T, profileName⟩).remote
        (resourceArmSecurityCenterSubscriptionPricingUpdate (echoClient id) s0
          ⟨prevId, T, profileName⟩).d).d.id = id ∧
    (resourceArmSecurityCenterSubscriptionPricingRead (echoClient id)
        (resourceArmSecurityCenterSubscriptionPricingUpdate (echoClient id) s0
          ⟨prevId, T, profileName⟩).remote
        (resourceArmSecurityCenterSubscriptionPricingUpdate (echoClient id) s0
          ⟨prevId, T, profileName⟩).d).d.id ≠ "" ∧
    (resourceArmSecurityCenterSubscriptionPricingRead (echoClient id)
        (resourceArmSecurityCenterSubscriptionPricingUpdate (echoClient id) s0
          ⟨prevId, T, profileName⟩).remote
        (resourceArmSecurityCenterSubscriptionPricingUpdate (echoClient id) s0
          ⟨prevId, T, profileName⟩).d).d.tier = T := by
  have hA : resourceArmSecurityCenterSubscriptionPricingUpdate (echoClient id) s0
      ⟨prevId, T, profileName⟩
      = { err := none, d := ⟨id, T, profileName⟩, remote := T,
          calls := [Call.Update (effectiveName ⟨prevId, T, profileName⟩)
                      (pricingDescriptor ⟨prevId, T, profileName⟩),
                    Call.Get (effectiveName ⟨prevId, T, profileName⟩),
                    Call.Get (effectiveName ⟨prevId, T, profileName⟩)] } := by
    rw [update_of_id (echoClient id) s0 ⟨prevId, T, profileName⟩ id rfl rfl rfl]
    rw [read_of_properties (echoClient id)
      (confirmCall (echoClient id) s0 ⟨prevId, T, profileName⟩).2
      (ResourceData.SetId ⟨prevId, T, profileName⟩ id) ⟨T⟩ rfl rfl]
    rfl
  have hR := read_of_properties (echoClient id) T ⟨id, T, profileName⟩ ⟨T⟩ rfl rfl
  simp [hA, hR, ResourceData.SetTier, hid]

theorem apply_refresh_round_trip_witness :
    (resourceArmSecurityCenterSubscriptionPricingUpdate (echoClient "sub/123/pricing/default")
        "Free" ⟨"", "Standard", ""⟩).err = none ∧
    (resourceArmSecurityCenterSubscriptionPricingUpdate (echoClient "sub/123/pricing/default")
        "Free" ⟨"", "Standard", ""⟩).d.id = "sub/123/pricing/default" ∧
    (resourceArmSecurityCenterSubscriptionPricingRead (echoClient "sub/123/pricing/default")
        (resourceArmSecurityCenterSubscriptionPricingUpdate
          (echoClient "sub/123/pricing/default") "Free" ⟨"", "Standard", ""⟩).remote
        (resourceArmSecurityCenterSubscriptionPricingUpdate
          (echoClient "sub/123/pricing/default") "Free" ⟨"", "Standard", ""⟩).d).err = none ∧
    (resourceArmSecurityCenterSubscriptionPricingRead (echoClient "sub/123/pricing/default")
        (resourceArmSecurityCenterSubscriptionPricingUpdate
          (echoClient "sub/123/pricing/default") "Free" ⟨"", "Standard", ""⟩).remote
        (resourceArmSecurityCenterSubscriptionPricingUpdate
          (echoClient "sub/123/pricing/default") "Free" ⟨"", "Standard", ""⟩).d).d.id
      = "sub/123/pricing/default" ∧
    (resourceArmSecurityCenterSubscriptionPricingRead (echoClient "sub/123/pricing/default")
        (resourceArmSecurityCenterSubscriptionPricingUpdate
          (echoClient "sub/123/pricing/default") "Free" ⟨"", "Standard", ""⟩).remote
        (resourceArmSecurityCenterSubscriptionPricingUpdate
          (echoClient "sub/123/pricing/default") "Free" ⟨"", "Standard", ""⟩).d).d.id ≠ "" ∧
    (resourceArmSecurityCenterSubscriptionPricingRead (echoClient "sub/123/pricing/default")
        (resourceArmSecurityCenterSubscriptionPricingUpdate
          (echoClient "sub/123/pricing/default") "Free" ⟨"", "Standard", ""⟩).remote
        (resourceArmSecurityCenterSubscriptionPricingUpdate
          (echoClient "sub/123/pricing/default") "Free" ⟨"", "Standard", ""⟩).d).d.tier
      = "Standard" :=
  apply_refresh_round_trip "sub/123/pricing/default" "Standard" "" "" "Free" (by decide)

/-! ## The identifier after a successful Apply -/

/-- C7, counterexample: the confirmation `Get` returns the non-empty identifier
"sub/123/pricing/default", the `Get` of the closing Refresh reports not found,
and Apply returns no error with the local identifier empty; and when both `Get`
calls succeed with the empty string as identifier, Apply again returns no error
with the local identifier empty. -/
theorem update_ok_with_empty_id :
    ((resourceArmSecurityCenterSubscriptionPricingUpdate scriptedClient
        [okResult (some "") (some "Standard"), okResult (some "") (some "Standard")]
        ⟨"sub/123/pricing/default", "Standard", ""⟩).err = none ∧
      (resourceArmSecurityCenterSubscriptionPricingUpdate scriptedClient
        [okResult (some "") (some "Standard"), okResult (some "") (some "Standard")]
        ⟨"sub/123/pricing/default", "Standard", ""⟩).d.id = "") ∧
    (confirmCall scriptedClient
        [okResult (some "sub/123/pricing/default") (some "Standard"),
         failResult 404 "not found"]
        ⟨"", "Standard", ""⟩).1.resp.ID = some "sub/123/pricing/default" ∧
    (resourceArmSecurityCenterSubscriptionPricingUpdate scriptedClient
        [okResult (some "sub/123/pricing/default") (some "Standard"),
         failResult 404 "not found"]
        ⟨"", "Standard", ""⟩).err = none ∧
    (resourceArmSecurityCenterSubscriptionPricingUpdate scriptedClient
        [okResult (some "sub/123/pricing/default") (some "Standard"),
         failResult 404 "not found"]
        ⟨"", "Standard", ""⟩).d.id = "" := by
  decide

/-- C7, as amended: whenever Apply returns without error, the `Update` call and
the confirmation `Get` succeeded, the confirmation `Get` returned a non-nil
identifier `id`, and the local identifier afterwards is `id` when the `Get` of
the closing Refresh succeeded and the empty string when it failed (which, Apply
having returned no error, means it reported not found). -/
theorem update_ok_identifier {σ : Type} (client : PricingClient σ) (s : σ)
    (d : ResourceData)
    (h : (resourceArmSecurityCenterSubscriptionPricingUpdate client s d).err = none) :
    ∃ id, (updateCall client s d).1.err = none ∧
      (confirmCall client s d).1.err = none ∧
      (confirmCall client s d).1.resp.ID = some id ∧
      (resourceArmSecurityCenterSubscriptionPricingUpdate client s d).d.id
        = (if (refreshCall client s d).1.err = none then id else "") ∧
      ((refreshCall client s d).1.err ≠ none →
        ResponseWasNotFound (refreshCall client s d).1.resp.Response = true) := by
  cases hu : (updateCall client s d).1.err with
  | some e =>
    rw [update_of_write_error client s d e hu] at h
    simp at h
  | none =>
    cases hg : (confirmCall client s d).1.err with
    | some e =>
      rw [update_of_confirm_error client s d e hu hg] at h
      simp at h
    | none =>
      cases hid : (confirmCall client s d).1.resp.ID with
      | none =>
        rw [update_of_nil_id client s d hu hg hid] at h
        simp at h
      | some id =>
        refine ⟨id, rfl, rfl, rfl, ?_⟩
        rw [update_of_id client s d id hu hg hid] at h ⊢
        simp only at h ⊢
        cases hr : (refreshCall client s d).1.err with
        | none =>
          have hr2 : (client.Get (confirmCall client s d).2
              (effectiveName (d.SetId id))).1.err = none := hr
          have h2 := read_ok_facts client (confirmCall client s d).2
            (d.SetId id) hr2
          refine ⟨?_, ?_⟩
          · rw [h2.2.2.1]; simp [ResourceData.SetId]
          · intro hc; exact absurd rfl hc
        | some e =>
          have hr2 : (client.Get (confirmCall client s d).2
              (effectiveName (d.SetId id))).1.err = some e := hr
          cases hnf : ResponseWasNotFound (refreshCall client s d).1.resp.Response with
          | true =>
            have hnf2 : ResponseWasNotFound (client.Get (confirmCall client s d).2
              (effectiveName (d.SetId id))).1.resp.Response = true := hnf
            rw [read_of_not_found client _ _ e hr2 hnf2]
            simp [ResourceData.SetId]
          | false =>
            have hnf2 : ResponseWasNotFound (client.Get (confirmCall client s d).2
              (effectiveName (d.SetId id))).1.resp.Response = false := hnf
            rw [read_of_error client _ _ e hr2 hnf2] at h
            simp at h

theorem update_ok_identifier_witness :
    ∃ id, (updateCall (echoClient "sub/123/pricing/default") "Free"
        ⟨"", "Standard", ""⟩).1.err = none ∧
      (confirmCall (echoClient "sub/123/pricing/default") "Free"
        ⟨"", "Standard", ""⟩).1.err = none ∧
      (confirmCall (echoClient "sub/123/pricing/default") "Free"
        ⟨"", "Standard", ""⟩).1.resp.ID = some id ∧
      (resourceArmSecurityCenterSubscriptionPricingUpdate
          (echoClient "sub/123/pricing/default") "Free" ⟨"", "Standard", ""⟩).d.id
        = (if (refreshCall (echoClient "sub/123/pricing/default") "Free"
              ⟨"", "Standard", ""⟩).1.err = none then id else "") ∧
      ((refreshCall (echoClient "sub/123/pricing/default") "Free"
          ⟨"", "Standard", ""⟩).1.err ≠ none →
        ResponseWasNotFound (refreshCall (echoClient "sub/123/pricing/default") "Free"
          ⟨"", "Standard", ""⟩).1.resp.Response = true) :=
  update_ok_identifier (echoClient "sub/123/pricing/default") "Free" ⟨"", "Standard", ""⟩
    (by decide)

/-! ## The local record after a remote error -/

/-- C8, counterexample: the confirmation `Get` succeeds, the `Get` of the closing
Refresh fails with status 500, Apply returns the `RemoteReadError`, and the local
identifier, empty before the call, is "sub/123/pricing/default" after it. -/
theorem update_read_error_changes_id :
    (resourceArmSecurityCenterSubscriptionPricingUpdate scriptedClient
        [okResult (some "sub/123/pricing/default") (some "Standard"),
         failResult 500 "internal error"]
        ⟨"", "Standard", ""⟩).err
      = some (AdapterError.RemoteReadError "internal error") ∧
    (resourceArmSecurityCenterSubscriptionPricingUpdate scriptedClient
        [okResult (some "sub/123/pricing/default") (some "Standard"),
         failResult 500 "internal error"]
        ⟨"", "Standard", ""⟩).d.id = "sub/123/pricing/default" ∧
    (resourceArmSecurityCenterSubscriptionPricingUpdate scriptedClient
        [okResult (some "sub/123/pricing/default") (some "Standard"),
         failResult 500 "internal error"]
        ⟨"", "Standard", ""⟩).d ≠ ⟨"", "Standard", ""⟩ := by
  decide

/-- C8, as amended: whenever Refresh returns a remote error the local record is
as before the call; whenever Apply returns a remote error and its `Update` call
or its confirmation `Get` failed, the local record is as before the call; and
whenever Apply returns a remote error although both succeeded, the error is the
`RemoteReadError` of the closing Refresh, the tier and the profile name are as
before the call, and the identifier is the one the confirmation `Get` returned. -/
theorem remote_error_local_record {σ : Type} (client : PricingClient σ) (s : σ)
    (d : ResourceData) :
    (isRemoteError (resourceArmSecurityCenterSubscriptionPricingRead client s d).err = true →
      (resourceArmSecurityCenterSubscriptionPricingRead client s d).d = d) ∧
    (isRemoteError (resourceArmSecurityCenterSubscriptionPricingUpdate client s d).err = true →
      ((updateCall client s d).1.err ≠ none ∨ (confirmCall client s d).1.err ≠ none) →
      (resourceArmSecurityCenterSubscriptionPricingUpdate client s d).d = d) ∧
    (isRemoteError (resourceArmSecurityCenterSubscriptionPricingUpdate client s d).err = true →
      (updateCall client s d).1.err = none → (confirmCall client s d).1.err = none →
      ∃ id e, (confirmCall client s d).1.resp.ID = some id ∧
        (refreshCall client s d).1.err = some e ∧
        (resourceArmSecurityCenterSubscriptionPricingUpdate client s d).err
          = some (AdapterError.RemoteReadError e) ∧
        (resourceArmSecurityCenterSubscriptionPricingUpdate client s d).d
          = { id := id, tier := d.tier, pricingName := d.pricingName }) := by
  refine ⟨?_, ?_, ?_⟩
  · intro h
    cases herr : (client.Get s (effectiveName d)).1.err with
    | some e =>
      cases hnf : ResponseWasNotFound (client.Get s (effectiveName d)).1.resp.Response with
      | true =>
        rw [read_of_not_found client s d e herr hnf] at h
        simp [isRemoteError] at h
      | false => rw [read_of_error client s d e herr hnf]
    | none =>
      have h2 := read_ok_facts client s d herr
      rw [h2.1] at h
      simp [isRemoteError] at h
  · intro _ hor
    cases hu : (updateCall client s d).1.err with
    | some e => rw [update_of_write_error client s d e hu]
    | none =>
      cases hg : (confirmCall client s d).1.err with
      | some e => rw [update_of_confirm_error client s d e hu hg]
      | none =>
        rcases hor with hor | hor
        · exact absurd hu hor
        · exact absurd hg hor
  · intro h hu hg
    cases hid : (confirmCall client s d).1.resp.ID with
    | none =>
      rw [update_of_nil_id client s d hu hg hid] at h
      simp [isRemoteError] at h
    | some id =>
      rw [update_of_id client s d id hu hg hid] at h ⊢
      simp only at h ⊢
      cases hr : (refreshCall client s d).1.err with
      | none =>
        have hr2 : (client.Get (confirmCall client s d).2
            (effectiveName (d.SetId id))).1.err = none := hr
        have h2 := read_ok_facts client (confirmCall client s d).2
          (d.SetId id) hr2
        rw [h2.1] at h
        simp [isRemoteError] at h
      | some e =>
        have hr2 : (client.Get (confirmCall client s d).2
            (effectiveName (d.SetId id))).1.err = some e := hr
        cases hnf : ResponseWasNotFound (refreshCall client s d).1.resp.Response with
        | true =>
          have hnf2 : ResponseWasNotFound (client.Get (confirmCall client s d).2
            (effectiveName (d.SetId id))).1.resp.Response = true := hnf
          rw [read_of_not_found client _ _ e hr2 hnf2] at h
          simp [isRemoteError] at h
        | false =>
          have hnf2 : ResponseWasNotFound (client.Get (confirmCall client s d).2
            (effectiveName (d.SetId id))).1.resp.Response = false := hnf
          rw [read_of_error client _ _ e hr2 hnf2]
          exact ⟨id, e, rfl, rfl, rfl, rfl⟩

theorem remote_error_local_record_witness :
    (resourceArmSecurityCenterSubscriptionPricingRead scriptedClient
        [failResult 500 "internal error"] ⟨"sub/123/pricing/default", "Free", ""⟩).d
      = ⟨"sub/123/pricing/default", "Free", ""⟩ ∧
    (resourceArmSecurityCenterSubscriptionPricingUpdate scriptedClient
        [failResult 500 "internal error"] ⟨"", "Standard", ""⟩).d = ⟨"", "Standard", ""⟩ ∧
    (∃ id e, (confirmCall scriptedClient
          [okResult (some "sub/123/pricing/default") (some "Standard"),
           failResult 500 "internal error"] ⟨"", "Standard", ""⟩).1.resp.ID = some id ∧
        (refreshCall scriptedClient
          [okResult (some "sub/123/pricing/default") (some "Standard"),
           failResult 500 "internal error"] ⟨"", "Standard", ""⟩).1.err = some e ∧
        (resourceArmSecurityCenterSubscriptionPricingUpdate scriptedClient
          [okResult (some "sub/123/pricing/default") (some "Standard"),
           failResult 500 "internal error"] ⟨"", "Standard", ""⟩).err
          = some (AdapterError.RemoteReadError e) ∧
        (resourceArmSecurityCenterSubscriptionPricingUpdate scriptedClient
          [okResult (some "sub/123/pricing/default") (some "Standard"),
           failResult 500 "internal error"] ⟨"", "Standard", ""⟩).d
          = { id := id, tier := "Standard", pricingName := "" }) :=
  ⟨(remote_error_local_record scriptedClient [failResult 500 "internal error"]
      ⟨"sub/123/pricing/default", "Free", ""⟩).1 (by decide),
   (remote_error_local_record scriptedClient [failResult 500 "internal error"]
      ⟨"", "Standard", ""⟩).2.1 (by decide) (Or.inr (by decide)),
   (remote_error_local_record scriptedClient
      [okResult (some "sub/123/pricing/default") (some "Standard"),
       failResult 500 "internal error"] ⟨"", "Standard", ""⟩).2.2
      (by decide) (by decide) (by decide)⟩

end SecurityCenter
